import Mathlib

/-!
Shallow embedding of `pages/1_📊_CoinGecko_Categories.py` (a Streamlit page).

Modelling conventions:
* Nullable numeric columns (`market_cap`, `total_volume`,
  `price_change_percentage_24h`) are `Option ℚ`; `none` stands for the
  JSON `null` / pandas `NaN`.
* `pandas.Series.sum` skips missing values and returns `0` when nothing is
  present (`pdSum`); `pandas.Series.mean` returns `NaN` (`none`) when nothing
  is present (`pdMean`).
* Accessing a column of a dataframe built from an empty record list raises
  `KeyError`; `metrics_try` models the body of the `try:` block in
  `safe_metrics`, returning `Except.error` there.
* Network calls are modelled by an oracle `Except String` response: `.error`
  is a `requests.RequestException`, which the fetchers catch, turning it into
  `none` plus an inline error message.
* Chart construction (`px.treemap`, `px.histogram`, `px.scatter`) may raise;
  this is modelled by an `Option String` exception oracle per builder
  (`some e` = the plotly call raises `e`).
* `pandas.Series.str.contains(pat)` defaults to `regex=True`, i.e. Python
  `re.search(pat, s)`.  We model the regex fragment the page can actually
  exercise faithfully: literal characters and the metacharacter `.` (any
  character except newline).  `Str.lower` is modelled character-wise.
* Streamlit widgets: the selectbox is modelled at its default (`index=0`),
  which is the state of the initial render; `st.error` / `st.warning`
  emissions are collected in lists.
-/

namespace CG

/-- One entry of `GET /coins/categories/list`: the code reads the
`category_id` and `name` fields. -/
structure Category where
  category_id : String
  name : String
deriving DecidableEq

/-- One entry of `GET /coins/markets` (the fields the page consumes). -/
structure AssetRecord where
  id : String
  name : String
  symbol : String
  market_cap : Option ℚ
  total_volume : Option ℚ
  price_change_percentage_24h : Option ℚ
deriving DecidableEq

/-- The dict built by `safe_metrics`. -/
structure MetricsSummary where
  total_tokens : ℕ
  total_market_cap : ℚ
  total_volume : ℚ
  avg_24h_change : ℚ
deriving DecidableEq

/-- Model of `pandas.Series.sum` over a nullable column: missing values are skipped
and an empty / all-missing column sums to `0` (default `min_count=0`). -/
def pdSum (xs : List (Option ℚ)) : ℚ :=
  (xs.filterMap id).sum

/-- Model of `pandas.Series.mean` over a nullable column: missing values are skipped;
the mean of an empty / all-missing column is `NaN`, modelled as `none`. -/
def pdMean (xs : List (Option ℚ)) : Option ℚ :=
  let present := xs.filterMap id
  if present.isEmpty then none
  else some (present.sum / (present.length : ℚ))

/-- Body of the `try:` block of `safe_metrics` (lines 83-90).  On an empty
record list the dataframe has no columns, so `df['market_cap']` raises
`KeyError`; otherwise the four aggregates are computed, with the
`pd.isna(v) -> 0` pass coercing a `NaN` mean to `0`.  (The sums cannot be
`NaN`: pandas sums skip missing values and default to `0`.) -/
def metrics_try (records : List AssetRecord) : Except String MetricsSummary :=
  if records.isEmpty then
    Except.error ("KeyError: market_cap")
  else
    Except.ok
      { total_tokens := records.length
        total_market_cap := pdSum (records.map (fun r => r.market_cap))
        total_volume := pdSum (records.map (fun r => r.total_volume))
        avg_24h_change :=
          (pdMean (records.map (fun r => r.price_change_percentage_24h))).getD 0 }

/-- Function `safe_metrics` (lines 81-98): the `except` branch substitutes the
all-zero summary for any error raised in the `try:` body. -/
def safe_metrics (records : List AssetRecord) : MetricsSummary :=
  match metrics_try records with
  | Except.ok m => m
  | Except.error _ =>
      { total_tokens := 0, total_market_cap := 0, total_volume := 0,
        avg_24h_change := 0 }

/-- Model of `x.notna() & (x > 0)` for a nullable column entry: pandas comparisons
with `NaN` are `False`, and `notna` excludes missing values. -/
def posOpt (x : Option ℚ) : Bool :=
  match x with
  | some v => decide (0 < v)
  | none => false

/-- Row filter of `safe_treemap`: `market_cap` present and strictly
positive (line 48). -/
def treemapKeep (r : AssetRecord) : Bool :=
  posOpt r.market_cap

/-- Row filter of the scatter builder: `market_cap` and `total_volume` both
present and strictly positive (lines 174-179). -/
def scatterKeep (r : AssetRecord) : Bool :=
  posOpt r.market_cap && posOpt r.total_volume

/-- The data a `px.treemap` figure consumes: the category label used as the
hierarchy root and the filtered rows sized by `market_cap`. -/
structure TreemapFig where
  category : String
  rows : List AssetRecord
deriving DecidableEq

/-- The data a `px.histogram` figure consumes: the non-null 24h changes and
the fixed bin count. -/
structure HistFig where
  values : List ℚ
  nbins : ℕ
deriving DecidableEq

/-- The data a `px.scatter` figure consumes: the filtered rows. -/
structure ScatterFig where
  rows : List AssetRecord
deriving DecidableEq

/-- Function `safe_treemap` (lines 46-79).  `exc` is the chart-construction
exception oracle for the `px.treemap` call; every raise inside the `try:`
is caught and turned into a warning plus `None`. -/
def safe_treemap (records : List AssetRecord) (selected_category : String)
    (exc : Option String) : Option TreemapFig × List String :=
  let df_filtered := records.filter treemapKeep
  if df_filtered.isEmpty then
    (none, ["No valid market cap data available for treemap visualization."])
  else
    match exc with
    | some e => (none, ["Could not create treemap visualization: " ++ e])
    | none => (some { category := selected_category, rows := df_filtered }, [])

/-- The histogram block (lines 161-170): rows with a non-null 24h change,
20 bins; a raise in the `try:` is caught and turned into a warning. -/
def build_hist (records : List AssetRecord) (exc : Option String) :
    Option HistFig × List String :=
  match exc with
  | some _ => (none, ["Could not create price change distribution chart."])
  | none =>
      (some { values := records.filterMap (fun r => r.price_change_percentage_24h)
              nbins := 20 }, [])

/-- Rows fed to `px.scatter` (lines 174-179). -/
def scatter_rows (records : List AssetRecord) : List AssetRecord :=
  records.filter scatterKeep

/-- The scatter block (lines 172-196): filter, then either warn on an empty
result, or build the figure; a raise at the `px.scatter` call is caught and
turned into a warning. -/
def build_scatter (records : List AssetRecord) (exc : Option String) :
    Option ScatterFig × List String :=
  let df_filtered := scatter_rows records
  if df_filtered.isEmpty then
    (none, ["Insufficient data for volume vs market cap visualization."])
  else
    match exc with
    | some _ => (none, ["Could not create volume vs market cap chart."])
    | none => (some { rows := df_filtered }, [])

/-- Function `fetch_categories` (lines 19-27): a transport / HTTP-status failure
(`requests.RequestException`, including `raise_for_status`) is caught,
reported via `st.error`, and `None` is returned. -/
def fetch_categories (resp : Except String (List Category)) :
    Option (List Category) × List String :=
  match resp with
  | Except.ok cats => (some cats, [])
  | Except.error e => (none, ["Error fetching categories: " ++ e])

/-- Function `fetch_category_data` (lines 29-44): same failure handling as
`fetch_categories`. -/
def fetch_category_data (resp : Except String (List AssetRecord)) :
    Option (List AssetRecord) × List String :=
  match resp with
  | Except.ok data => (some data, [])
  | Except.error e => (none, ["Error fetching category data: " ++ e])

/-- Model of `Str.lower`, character-wise (ASCII-faithful). -/
def pyLower (s : String) : String :=
  ⟨s.data.map Char.toLower⟩

/-- One pattern character against one subject character under Python `re`
semantics for the fragment {literal, `.`}: `.` matches anything but a
newline, every other character matches itself. -/
def charMatch (p c : Char) : Bool :=
  if p = '.' then c != '\n' else p == c

/-- Does the pattern match a prefix of the subject? -/
def reMatchHere : List Char → List Char → Bool
  | [], _ => true
  | _ :: _, [] => false
  | p :: ps, c :: cs => charMatch p c && reMatchHere ps cs

/-- Python `re.search`: does the pattern match at some position of the
subject? -/
def reSearch (p s : List Char) : Bool :=
  match s with
  | [] => reMatchHere p []
  | _ :: rest => reMatchHere p s || reSearch p rest

/-- Model of `Series.str.contains(pat)` with its default `regex=True`:
`re.search(pat, s)` is truthy. -/
def str_contains (s pat : String) : Bool :=
  reSearch pat.data s.data

/-- Plain case-sensitive substring test on character lists.  This is the
spec's notion of "substring match", stated independently of the code's
regex semantics, for the refinement comparison. -/
def isSubstr (p s : List Char) : Bool :=
  match s with
  | [] => p.isEmpty
  | _ :: rest => p.isPrefixOf s || isSubstr p rest

/-- The sidebar filter (lines 115-117): keep the categories whose lowered
name "contains" the (already lowered) search term. -/
def filtered_categories (categories : List Category) (search_term : String) :
    List Category :=
  categories.filter (fun c => str_contains (pyLower c.name) search_term)

/-- The selectbox default (`index=0`, line 123): the first offered name. -/
def selected_category_of (fcats : List Category) : Option String :=
  (fcats.head?).map (fun c => c.name)

/-- Lines 125-127: `.iloc[0]` of the `category_id` column of the rows whose
name equals the selection. -/
def selected_id_of (fcats : List Category) (sel : String) : Option String :=
  ((fcats.filter (fun c => c.name = sel)).head?).map (fun c => c.category_id)

/-- Everything the page emits after the data fetch: inline errors, inline
warnings, the four metric tiles (as one summary), and the three charts. -/
structure PageOutput where
  errors : List String := []
  warnings : List String := []
  tiles : Option MetricsSummary := none
  treemap : Option TreemapFig := none
  hist : Option HistFig := none
  scatter : Option ScatterFig := none
deriving DecidableEq

/-- Lines 152-196: the three visualization blocks over a (non-empty)
dataframe.  The treemap is built unconditionally; the histogram and
scatter sit inside `if not df.empty:`. -/
def render_charts (df : List AssetRecord) (selected_category : String)
    (tExc hExc sExc : Option String) : PageOutput :=
  let tm := safe_treemap df selected_category tExc
  let hg := if df.isEmpty then (none, []) else build_hist df hExc
  let sc := if df.isEmpty then (none, []) else build_scatter df sExc
  { warnings := tm.2 ++ hg.2 ++ sc.2,
    treemap := tm.1, hist := hg.1, scatter := sc.1 }

/-- Function `main` (lines 100-196).  `catResp` is the network oracle for the
catalog fetch, `marketResp` the per-category oracle for the market fetch,
`searchInput` the raw sidebar text, and `tExc`/`hExc`/`sExc` the
chart-construction exception oracles.  Falsy guards: `if not categories:`
and `if category_data:` treat both `None` and the empty list as absent. -/
def main (catResp : Except String (List Category))
    (marketResp : String → Except String (List AssetRecord))
    (searchInput : String) (tExc hExc sExc : Option String) : PageOutput :=
  let fc := fetch_categories catResp
  match fc.1 with
  | none =>
      { errors := fc.2 ++ ["Failed to fetch categories. Please try again later."] }
  | some categories =>
    if categories.isEmpty then
      { errors := fc.2 ++ ["Failed to fetch categories. Please try again later."] }
    else
      let search_term := pyLower searchInput
      let fcats := filtered_categories categories search_term
      if fcats.isEmpty then
        { warnings := ["No categories found matching your search."] }
      else
        let selected_category := (selected_category_of fcats).getD ("")
        let selected_id := (selected_id_of fcats selected_category).getD ("")
        let md := fetch_category_data (marketResp selected_id)
        match md.1 with
        | none => { errors := md.2 }
        | some category_data =>
          if category_data.isEmpty then
            { errors := md.2 }
          else
            let charts := render_charts category_data selected_category tExc hExc sExc
            { errors := md.2, warnings := charts.warnings,
              tiles := some (safe_metrics category_data),
              treemap := charts.treemap, hist := charts.hist,
              scatter := charts.scatter }

/-! Concrete fixtures used in example-level statements. -/

/-- The catalog entry "DeFi" of the spec's search example. -/
def exDeFi : Category := ⟨"decentralized-finance-defi", "DeFi"⟩

/-- The catalog entry "NFT Index" of the spec's search example. -/
def exNFT : Category := ⟨"nft", "NFT Index"⟩

/-- The record `{mc:100, vol:50}` of the spec's scatter example. -/
def rec1 : AssetRecord := ⟨"a", "A", "a", some 100, some 50, none⟩

/-- The record `{mc:null, vol:10}` of the spec's scatter example. -/
def rec2 : AssetRecord := ⟨"b", "B", "b", none, some 10, none⟩

/-- The record `{mc:0, vol:5}` of the spec's scatter example. -/
def rec3 : AssetRecord := ⟨"c", "C", "c", some 0, some 5, none⟩

/-- A record whose only possibly-present field is the 24h change. -/
def chgOnly (q : Option ℚ) : AssetRecord := ⟨"x", "X", "x", none, none, q⟩

/-- A record with every nullable field null. -/
def nullRec : AssetRecord := chgOnly none

/-- The characters Python `re` treats specially; a pattern avoiding all of
them is matched purely literally. -/
def regexMeta : List Char :=
  ['.', '^', '$', '*', '+', '?', '\x7b', '\x7d', '[', ']', '\\', '|', '(', ')']

/-! Helper lemmas. -/

/-- The `pdSum` of a projected column is the sum of the present values. -/
theorem pdSum_map (f : AssetRecord → Option ℚ) (l : List AssetRecord) :
    pdSum (l.map f) = (l.filterMap f).sum := by
  simp [pdSum, List.filterMap_map, Function.comp]

/-- The zero-defaulted `pdMean` over a projected column is the mean of the
present values, zero when none are present. -/
theorem pdMean_map_getD (f : AssetRecord → Option ℚ) (l : List AssetRecord) :
    (pdMean (l.map f)).getD 0 =
      (if l.filterMap f = [] then 0
       else (l.filterMap f).sum / ((l.filterMap f).length : ℚ)) := by
  by_cases h : l.filterMap f = [] <;>
    simp [pdMean, List.filterMap_map, Function.comp, List.isEmpty_iff, h]

/-- The aggregate-by-aggregate characterization of `safe_metrics`: shared by
the claims about the metrics component. -/
theorem safe_metrics_spec (records : List AssetRecord) :
    (safe_metrics records).total_tokens = records.length ∧
    (safe_metrics records).total_market_cap =
      (records.filterMap (fun r => r.market_cap)).sum ∧
    (safe_metrics records).total_volume =
      (records.filterMap (fun r => r.total_volume)).sum ∧
    (safe_metrics records).avg_24h_change =
      (if records.filterMap (fun r => r.price_change_percentage_24h) = [] then 0
       else (records.filterMap (fun r => r.price_change_percentage_24h)).sum /
         ((records.filterMap (fun r => r.price_change_percentage_24h)).length : ℚ)) := by
  cases records with
  | nil => simp [safe_metrics, metrics_try, pdSum, pdMean]
  | cons r rs =>
      refine ⟨rfl, ?_, ?_, ?_⟩
      · exact pdSum_map _ (r :: rs)
      · exact pdSum_map _ (r :: rs)
      · exact pdMean_map_getD _ (r :: rs)

/-- The empty regex pattern matches every subject. -/
theorem reSearch_nil (s : List Char) : reSearch [] s = true := by
  cases s <;> simp [reSearch, reMatchHere]

/-- With the empty search term, the sidebar filter keeps the whole catalog. -/
theorem filtered_categories_empty_term (l : List Category) :
    filtered_categories l (pyLower ("")) = l := by
  have h : ∀ c ∈ l, str_contains (pyLower c.name) (pyLower ("")) = true := by
    intro c _
    simpa [str_contains, pyLower] using reSearch_nil (pyLower c.name).data
  calc filtered_categories l (pyLower (""))
      = l.filter (fun _ => true) := List.filter_congr h
    _ = l := List.filter_true l

/-- Predicate `posOpt` holds exactly on present, strictly positive values. -/
theorem posOpt_iff (x : Option ℚ) :
    posOpt x = true ↔ ∃ v, x = some v ∧ 0 < v := by
  cases x <;> simp [posOpt]

/-- On a metacharacter-free pattern, anchored regex matching is the
prefix test. -/
theorem reMatchHere_literal (p : List Char)
    (hp : p.all (fun c => !(regexMeta.contains c)) = true) :
    ∀ s, reMatchHere p s = p.isPrefixOf s := by
  induction p with
  | nil => intro s; cases s <;> rfl
  | cons a as ih =>
      rw [List.all_cons, Bool.and_eq_true] at hp
      intro s
      cases s with
      | nil => rfl
      | cons c cs =>
          have hdot : a ≠ '.' := by
            intro h
            subst h
            simp [regexMeta] at hp
          simp [reMatchHere, List.isPrefixOf, charMatch, hdot, ih hp.2 cs]

/-- On a metacharacter-free pattern, regex search is the substring test. -/
theorem reSearch_literal (p : List Char)
    (hp : p.all (fun c => !(regexMeta.contains c)) = true) :
    ∀ s, reSearch p s = isSubstr p s := by
  intro s
  induction s with
  | nil => cases p <;> rfl
  | cons c cs ih => simp [reSearch, isSubstr, reMatchHere_literal p hp, ih]

/-! Claim theorems. -/

/-- C1: `safe_metrics` returns `total_tokens` equal to the input length,
`total_market_cap` and `total_volume` equal to the sums of the present
values of the respective fields (an entirely-null column summing to zero),
and `avg_24h_change` equal to the mean of the present 24h changes, zero if
none are present; in particular the `[10, null, -4]` average equals 3 and a
list of two all-null records yields `total_market_cap = 0` with
`total_tokens = 2`. -/
theorem metrics_agg_spec :
    (∀ records : List AssetRecord,
      (safe_metrics records).total_tokens = records.length ∧
      (safe_metrics records).total_market_cap =
        (records.filterMap (fun r => r.market_cap)).sum ∧
      (safe_metrics records).total_volume =
        (records.filterMap (fun r => r.total_volume)).sum ∧
      (safe_metrics records).avg_24h_change =
        (if records.filterMap (fun r => r.price_change_percentage_24h) = [] then 0
         else (records.filterMap (fun r => r.price_change_percentage_24h)).sum /
           ((records.filterMap (fun r => r.price_change_percentage_24h)).length : ℚ))) ∧
    (safe_metrics [chgOnly (some 10), chgOnly none, chgOnly (some (-4))]).avg_24h_change = 3 ∧
    (safe_metrics [nullRec, nullRec]).total_market_cap = 0 ∧
    (safe_metrics [nullRec, nullRec]).total_tokens = 2 := by
  refine ⟨safe_metrics_spec, ?_, by decide, by decide⟩
  norm_num [safe_metrics, metrics_try, pdMean, pdSum, chgOnly, List.filterMap_cons]

/-- C2: any error raised inside the `try:` body of `safe_metrics` is caught
and replaced by the all-zero summary, and the empty list (whose column
access raises `KeyError`) yields the all-zero summary without raising. -/
theorem metrics_never_fails :
    (∀ (records : List AssetRecord) (e : String),
      metrics_try records = Except.error e →
        safe_metrics records = (⟨0, 0, 0, 0⟩ : MetricsSummary)) ∧
    safe_metrics [] = (⟨0, 0, 0, 0⟩ : MetricsSummary) := by
  constructor
  · intro records e h
    simp [safe_metrics, h]
  · rfl

/-- Witness for C2 at the empty list, where `metrics_try` does raise. -/
theorem metrics_never_fails_witness :
    safe_metrics [] = (⟨0, 0, 0, 0⟩ : MetricsSummary) :=
  metrics_never_fails.1 [] ("KeyError: market_cap") rfl

/-- C3: the summary returned by `safe_metrics` is fully defined for every
input: each aggregate whose input column is empty or entirely missing is
coerced to zero (the `NaN` mean via the `pd.isna` pass, the sums by pandas
defaulting), so no field is ever null or `NaN`. -/
theorem metrics_fully_defined (records : List AssetRecord) :
    ((∀ r ∈ records, r.price_change_percentage_24h = none) →
      (safe_metrics records).avg_24h_change = 0) ∧
    ((∀ r ∈ records, r.market_cap = none) →
      (safe_metrics records).total_market_cap = 0) ∧
    ((∀ r ∈ records, r.total_volume = none) →
      (safe_metrics records).total_volume = 0) ∧
    (pdMean (records.map (fun r => r.price_change_percentage_24h)) = none →
      (safe_metrics records).avg_24h_change = 0) ∧
    safe_metrics [] = (⟨0, 0, 0, 0⟩ : MetricsSummary) := by
  obtain ⟨h1, h2, h3, h4⟩ := safe_metrics_spec records
  refine ⟨?_, ?_, ?_, ?_, rfl⟩
  · intro h
    rw [h4, if_pos (List.filterMap_eq_nil_iff.mpr h)]
  · intro h
    rw [h2, List.filterMap_eq_nil_iff.mpr h, List.sum_nil]
  · intro h
    rw [h3, List.filterMap_eq_nil_iff.mpr h, List.sum_nil]
  · intro h
    cases records with
    | nil => rfl
    | cons r rs =>
        show (pdMean ((r :: rs).map (fun r => r.price_change_percentage_24h))).getD 0 = 0
        rw [h]
        rfl

/-- Witness for C3 at a single record with every nullable field null. -/
theorem metrics_fully_defined_witness :
    (safe_metrics [nullRec]).avg_24h_change = 0 ∧
    (safe_metrics [nullRec]).total_market_cap = 0 ∧
    (safe_metrics [nullRec]).total_volume = 0 :=
  ⟨(metrics_fully_defined [nullRec]).1 (by decide),
   (metrics_fully_defined [nullRec]).2.1 (by decide),
   (metrics_fully_defined [nullRec]).2.2.1 (by decide)⟩

/-- C4 counterexample: with a concrete catalog and a market fetch that
returns an empty record list, the page output has no metric tiles, no
charts and not even a warning — not the claimed zero-valued tiles plus
three "no data" placeholders. -/
theorem empty_market_no_tiles_cex :
    (main (Except.ok [exDeFi]) (fun _ => Except.ok []) ("") none none none).tiles = none ∧
    (main (Except.ok [exDeFi]) (fun _ => Except.ok []) ("") none none none).treemap = none ∧
    (main (Except.ok [exDeFi]) (fun _ => Except.ok []) ("") none none none).hist = none ∧
    (main (Except.ok [exDeFi]) (fun _ => Except.ok []) ("") none none none).scatter = none ∧
    (main (Except.ok [exDeFi]) (fun _ => Except.ok []) ("") none none none).warnings = [] := by
  decide

/-- C4 (amended): when the selected category's market fetch returns an
empty record list, `if category_data:` is falsy, so after the spinner the
page renders nothing at all — no metric tiles, no charts, no warnings —
and nothing throws: the output is the empty page, the same as for a failed
fetch. -/
theorem empty_market_renders_nothing (c : Category) (cs : List Category)
    (tE hE sE : Option String) :
    main (Except.ok (c :: cs)) (fun _ => Except.ok []) ("") tE hE sE = {} := by
  simp [main, fetch_categories, fetch_category_data, filtered_categories_empty_term]

/-- C5 counterexample: with search term `"."` the sidebar filter retains
`"DeFi"`, although `"."` does not occur as a substring of the lowered name
`"defi"` — the claimed "retained iff substring" equivalence fails because
`str.contains` defaults to regex semantics. -/
theorem search_not_substring_cex :
    filtered_categories [exDeFi] (pyLower (".")) = [exDeFi] ∧
    isSubstr (pyLower (".")).data (pyLower exDeFi.name).data = false := by
  decide

/-- C5 (amended): the sidebar filter retains a category iff Python
`re.search` of the lowered term succeeds on the lowered name (pandas
`str.contains` defaults to `regex=True`); for search terms free of regex
metacharacters this coincides with case-insensitive substring matching, and
searching "nft" against [DeFi, NFT Index] yields exactly [NFT Index]. -/
theorem search_regex_semantics (term : String) (catalog : List Category)
    (h : (pyLower term).data.all (fun c => !(regexMeta.contains c)) = true) :
    filtered_categories catalog (pyLower term) =
      catalog.filter (fun c => isSubstr (pyLower term).data (pyLower c.name).data) ∧
    filtered_categories [exDeFi, exNFT] (pyLower ("nft")) = [exNFT] := by
  refine ⟨?_, by decide⟩
  apply List.filter_congr
  intro c _
  simp [str_contains, reSearch_literal _ h]

/-- Witness for C5 (amended) at the spec's own example. -/
theorem search_regex_semantics_witness :
    (filtered_categories [exDeFi, exNFT] (pyLower ("nft")) =
      [exDeFi, exNFT].filter
        (fun c => isSubstr (pyLower ("nft")).data (pyLower c.name).data)) ∧
    filtered_categories [exDeFi, exNFT] (pyLower ("nft")) = [exNFT] :=
  search_regex_semantics ("nft") [exDeFi, exNFT] (by decide)

/-- C6: the scatter builder keeps exactly the records whose market cap and
total volume are both present and strictly positive; the spec's
three-record example yields exactly one plotted point. -/
theorem scatter_filter_spec :
    (∀ (r : AssetRecord) (records : List AssetRecord),
      r ∈ scatter_rows records ↔
        r ∈ records ∧ (∃ mc, r.market_cap = some mc ∧ 0 < mc) ∧
          (∃ v, r.total_volume = some v ∧ 0 < v)) ∧
    (build_scatter [rec1, rec2, rec3] none).1 = some ⟨[rec1]⟩ ∧
    (scatter_rows [rec1, rec2, rec3]).length = 1 := by
  refine ⟨?_, by decide, by decide⟩
  intro r records
  simp [scatter_rows, List.mem_filter, scatterKeep, posOpt_iff, and_assoc]

/-- C7: `safe_treemap` only ever consumes records whose market cap is
present and strictly positive — every other record is silently excluded —
and when no record qualifies it returns `None` with a warning instead of
raising, whatever the chart-exception oracle does. -/
theorem treemap_filter_spec (records : List AssetRecord) (sel : String)
    (exc : Option String) :
    (∀ fig, (safe_treemap records sel exc).1 = some fig →
      fig.rows = records.filter treemapKeep ∧
      ∀ r ∈ fig.rows, r ∈ records ∧ ∃ mc, r.market_cap = some mc ∧ 0 < mc) ∧
    ((records.filter treemapKeep).isEmpty = true →
      safe_treemap records sel exc =
        (none, ["No valid market cap data available for treemap visualization."])) := by
  constructor
  · intro fig hfig
    have hrows : fig.rows = records.filter treemapKeep := by
      by_cases hemp : (records.filter treemapKeep).isEmpty
      · simp [safe_treemap, hemp] at hfig
      · cases exc with
        | some e => simp [safe_treemap, hemp] at hfig
        | none =>
            simp [safe_treemap, hemp] at hfig
            rw [← hfig]

    refine ⟨hrows, ?_⟩
    intro r hr
    rw [hrows] at hr
    rw [List.mem_filter] at hr
    exact ⟨hr.1, (posOpt_iff _).mp hr.2⟩
  · intro hemp
    simp [safe_treemap, hemp]

/-- Witness for C7: exclusion of a qualifying singleton is observed, and a
list with no positive market cap yields the warning pair. -/
theorem treemap_filter_spec_witness :
    (({ category := "X", rows := [rec1] } : TreemapFig).rows = [rec1].filter treemapKeep ∧
      ∀ r ∈ ({ category := "X", rows := [rec1] } : TreemapFig).rows,
        r ∈ [rec1] ∧ ∃ mc, r.market_cap = some mc ∧ 0 < mc) ∧
    safe_treemap [rec2, rec3] ("X") none =
      (none, ["No valid market cap data available for treemap visualization."]) :=
  ⟨(treemap_filter_spec [rec1] ("X") none).1 ⟨"X", [rec1]⟩ (by decide),
   (treemap_filter_spec [rec2, rec3] ("X") none).2 (by decide)⟩

/-- In `main`, each chart slot of the output depends only on its own
builder's exception oracle. -/
theorem main_chart_indep (catResp : Except String (List Category))
    (marketResp : String → Except String (List AssetRecord)) (s : String)
    (tE hE sE tE' hE' sE' : Option String) :
    (main catResp marketResp s tE hE sE).treemap =
      (main catResp marketResp s tE hE' sE').treemap ∧
    (main catResp marketResp s tE hE sE).hist =
      (main catResp marketResp s tE' hE sE').hist ∧
    (main catResp marketResp s tE hE sE).scatter =
      (main catResp marketResp s tE' hE' sE).scatter := by
  cases catResp with
  | error e => exact ⟨rfl, rfl, rfl⟩
  | ok cats =>
      simp only [main, fetch_categories]
      repeat' split
      all_goals exact ⟨rfl, rfl, rfl⟩

/-- C8: both fetchers turn a transport / HTTP-status failure into `None`
plus an inline error message instead of raising, and the shell treats the
`None` as "no data": a catalog failure halts the render with only the
error messages, and a market-data failure halts after the spinner with no
tiles and no charts. -/
theorem fetch_failure_halts (e : String) (c : Category) (cs : List Category)
    (marketResp : String → Except String (List AssetRecord))
    (tE hE sE : Option String) :
    fetch_categories (Except.error e) =
      (none, ["Error fetching categories: " ++ e]) ∧
    fetch_category_data (Except.error e) =
      (none, ["Error fetching category data: " ++ e]) ∧
    main (Except.error e) marketResp ("") tE hE sE =
      { errors := ["Error fetching categories: " ++ e, "Failed to fetch categories. Please try again later."] } ∧
    main (Except.ok (c :: cs)) (fun _ => Except.error e) ("") tE hE sE =
      { errors := ["Error fetching category data: " ++ e] } := by
  refine ⟨rfl, rfl, ?_, ?_⟩
  · simp [main, fetch_categories]
  · simp [main, fetch_categories, fetch_category_data, filtered_categories_empty_term]

/-- C9: the three visualization builders are independently fault-isolated:
each chart slot of the page output depends only on its own builder's
exception oracle, and a chart-construction exception in any builder is
caught inside that builder, producing `None` plus a single local warning
instead of propagating. -/
theorem builders_fault_isolated (df : List AssetRecord) (sel e : String)
    (catResp : Except String (List Category))
    (marketResp : String → Except String (List AssetRecord)) (s : String)
    (tE hE sE tE' hE' sE' : Option String) :
    ((main catResp marketResp s tE hE sE).treemap =
      (main catResp marketResp s tE hE' sE').treemap) ∧
    ((main catResp marketResp s tE hE sE).hist =
      (main catResp marketResp s tE' hE sE').hist) ∧
    ((main catResp marketResp s tE hE sE).scatter =
      (main catResp marketResp s tE' hE' sE).scatter) ∧
    ((render_charts df sel tE hE sE).treemap = (safe_treemap df sel tE).1) ∧
    ((safe_treemap df sel (some e)).1 = none ∧
      (safe_treemap df sel (some e)).2.length = 1) ∧
    ((build_hist df (some e)).1 = none ∧ (build_hist df (some e)).2.length = 1) ∧
    ((build_scatter df (some e)).1 = none ∧
      (build_scatter df (some e)).2.length = 1) := by
  obtain ⟨h1, h2, h3⟩ := main_chart_indep catResp marketResp s tE hE sE tE' hE' sE'
  refine ⟨h1, h2, h3, rfl, ?_, ⟨rfl, rfl⟩, ?_⟩
  · by_cases h : (df.filter treemapKeep).isEmpty <;> simp [safe_treemap, h]
  · by_cases h : (scatter_rows df).isEmpty <;> simp [build_scatter, h]

/-- C10: a blank search term matches every category, so the dropdown
offers the whole fetched catalog and defaults to its first entry
(`index=0`); resolving the selection takes the first record whose name
equals it and reads its `category_id`. -/
theorem empty_search_default_selection (c : Category) (cs : List Category) :
    filtered_categories (c :: cs) (pyLower ("")) = c :: cs ∧
    selected_category_of (filtered_categories (c :: cs) (pyLower (""))) = some c.name ∧
    ((c :: cs).filter (fun x => x.name = c.name)).head? = some c ∧
    selected_id_of (c :: cs) c.name = some c.category_id := by
  have hf := filtered_categories_empty_term (c :: cs)
  have hhead : ((c :: cs).filter (fun x => x.name = c.name)).head? = some c := by
    simp [List.filter_cons]
  refine ⟨hf, ?_, hhead, ?_⟩
  · rw [hf]
    rfl
  · simp [selected_id_of, hhead]

end CG
